import Mathlib

/-!
# Verification of the Sports Analytics SaaS backend

A shallow embedding of the backend's read endpoints (`src/main.py`) and
schema validation (`src/schemas.py`) over a document-store model, together
with theorems settling the specification's claims about filter
construction, validation bounds, fallback behavior and response shaping.

Documents are modelled as association lists from field names to values
(mirroring Python dicts), filters as lists of field conditions (mirroring
the MongoDB filter dictionaries the source builds), and numeric values as
rationals and integers (the float literals involved in the claims are
exactly representable and compared only by order).
-/

namespace SportsApi

/-- A stored value: the value kinds that appear in documents and filters.
`oid` models a store-internal ObjectId (carrying its hex rendering);
`pynone` models Python's `None`. -/
inductive Value where
  | str (s : String)
  | int (n : Int)
  | num (q : Rat)
  | bool (b : Bool)
  | oid (hex : String)
  | pynone
deriving DecidableEq, Repr

/-- A document: an association list of field name to value, first entry
wins on lookup (Python dicts have unique keys, so this is faithful). -/
abbrev Doc := List (String × Value)

/-- Python dict `d.get(k)`: the value at `k`, or `None` if absent. -/
def pyGet (d : Doc) (k : String) : Value :=
  (d.lookup k).getD Value.pynone

/-- Python `str()` on the value kinds the code applies it to:
`str(ObjectId)` is its hex string, `str(None)` is `"None"`. -/
def pyStr : Value → String
  | .str s => s
  | .int n => toString n
  | .num q => toString q
  | .bool b => if b then "True" else "False"
  | .oid hex => hex
  | .pynone => "None"

/-- Python dict assignment `d[k] = v`: replace the entry at `k` if present
(keeping its position), else append a new entry. -/
def setKey : Doc → String → Value → Doc
  | [], k, v => [(k, v)]
  | (k', v') :: rest, k, v =>
      if k' = k then (k, v) :: rest else (k', v') :: setKey rest k v

/-- The response shaping `d["_id"] = str(d.get("_id"))` applied to every
document returned by a read endpoint (src/main.py lines 195-196, 207-208,
217-218, 229-230, 246-247, 265-266, 294-295). -/
def convertId (d : Doc) : Doc :=
  setKey d "_id" (.str (pyStr (pyGet d "_id")))

/-! ## Filters

The source builds MongoDB filter dictionaries by hand. The only shapes it
ever builds are: field equality, an anchored regex `{"$regex": "^" + date}`
(a literal string-prefix pattern: the dates passed contain no regex
metacharacters), and `$gte`/`$lte` range dictionaries. -/

/-- A single field condition of a filter. -/
inductive Cond where
  | eq (v : Value)
  | regexAnchor (pfx : String)
  | range (gte lte : Option Value)
deriving DecidableEq, Repr

/-- A filter: a conjunction of field conditions, keyed by field name. -/
abbrev Filter := List (String × Cond)

/-- Order on values as the store compares them in `$gte`/`$lte`: numeric
values compare numerically (ints and rationals mix), strings
lexicographically; values of incomparable kinds never satisfy a bound. -/
def vle : Value → Value → Bool
  | .int a, .int b => a ≤ b
  | .int a, .num b => (a : Rat) ≤ b
  | .num a, .int b => a ≤ (b : Rat)
  | .num a, .num b => a ≤ b
  | .str a, .str b => a ≤ b
  | _, _ => false

/-- Modelled from the spec: whether one field condition holds of a field
value, per the gateway's query semantics (`database.py` is not in the
source tree; §4.1 of the spec gives the `query(collection, filter, limit)`
contract and §4.2 fixes the prefix/range/equality semantics). The anchored
regex `^p` for the literal strings the builder supplies is a string-prefix
match. Range bounds are inclusive. -/
def condMatches : Cond → Value → Bool
  | .eq v, w => v = w
  | .regexAnchor p, .str s => p.data.isPrefixOf s.data
  | .regexAnchor _, _ => false
  | .range gte lte, w =>
      (match gte with | none => true | some lo => vle lo w) &&
      (match lte with | none => true | some hi => vle w hi)

/-- Modelled from the spec: a document matches a filter iff every field
condition holds of the document's value at that field (a conjunctive
filter; a document lacking the field fails the condition). -/
def docMatches (f : Filter) (d : Doc) : Bool :=
  f.all fun kc =>
    match d.lookup kc.1 with
    | some v => condMatches kc.2 v
    | none => false

/-- A store: the documents of each named collection, in store order. -/
abbrev Store := String → List Doc

/-- Modelled from the spec: `get_documents(collection, filter, limit)` of
the absent `database.py` — returns the documents of the collection that
match the filter, truncated at `limit` when a limit is given (§4.1:
"returns a lazy sequence of matching documents ... truncated at `limit`
(or unbounded if `limit` is absent/null)"). -/
def get_documents (store : Store) (collection : String) (filt : Filter)
    (limit : Option Nat) : List Doc :=
  match limit with
  | none => (store collection).filter (docMatches filt)
  | some n => ((store collection).filter (docMatches filt)).take n

/-! ## Python truthiness

The filter builder tests optional parameters with bare `if p:`; `None`,
the empty string, `0` and `0.0` are falsy. -/

/-- Truthiness of `Optional[str]`: `None` and `""` are falsy. -/
def truthyStr : Option String → Bool
  | none => false
  | some s => s ≠ ""

/-- Truthiness of `Optional[int]`: `None` and `0` are falsy. -/
def truthyInt : Option Int → Bool
  | none => false
  | some n => n ≠ 0

/-- Truthiness of `Optional[float]`: `None` and `0.0` are falsy. -/
def truthyRat : Option Rat → Bool
  | none => false
  | some q => q ≠ 0

/-! ## The prediction filter builder (src/main.py lines 170-191) -/

/-- The `confidence` part of the prediction filter:
```
if min_conf or max_conf:
    conf = {}
    if min_conf is not None: conf["$gte"] = min_conf
    if max_conf is not None: conf["$lte"] = max_conf
    if conf: filt["confidence"] = conf
```
-/
def confPart (min_conf max_conf : Option Int) : Filter :=
  if truthyInt min_conf || truthyInt max_conf then
    let gte := min_conf.map Value.int
    let lte := max_conf.map Value.int
    if gte.isSome || lte.isSome then [("confidence", .range gte lte)] else []
  else []

/-- The `odds` part of the prediction filter:
```
if min_odds or max_odds:
    odds = {}
    if min_odds is not None: odds["$gte"] = min_odds
    if max_odds is not None: odds["$lte"] = max_odds
    if odds: filt["odds"] = odds
```
-/
def oddsPart (min_odds max_odds : Option Rat) : Filter :=
  if truthyRat min_odds || truthyRat max_odds then
    let gte := min_odds.map Value.num
    let lte := max_odds.map Value.num
    if gte.isSome || lte.isSome then [("odds", .range gte lte)] else []
  else []

/-- The `league` part: `if league: filt["league"] = league`. -/
def leaguePart (league : Option String) : Filter :=
  if truthyStr league then [("league", .eq (.str (league.getD "")))] else []

/-- The `date` part:
`if date: filt["kickoff_iso"] = {"$regex": f"^{date}"}`. -/
def datePart (date : Option String) : Filter :=
  if truthyStr date then [("kickoff_iso", .regexAnchor (date.getD ""))] else []

/-- The whole filter dictionary built by `list_predictions`
(src/main.py lines 170-191), entries in source order. -/
def buildPredFilter (league date : Option String)
    (min_odds max_odds : Option Rat) (min_conf max_conf : Option Int) :
    Filter :=
  leaguePart league ++ datePart date ++ confPart min_conf max_conf ++
    oddsPart min_odds max_odds

/-! ## Endpoints (src/main.py)

Each endpoint takes `db : Option Store` (`None` models no database
connection) and returns `Except HErr _`, with `HErr` the
`HTTPException(status_code, detail)` raised on failure. List endpoints
return the `items` list of their response. -/

/-- An `HTTPException(status_code, detail)`. -/
structure HErr where
  status_code : Nat
  detail : String
deriving DecidableEq, Repr

/-- Endpoint `GET /predictions` (src/main.py lines 163-197). -/
def list_predictions (db : Option Store) (league date : Option String)
    (min_odds max_odds : Option Rat) (min_conf max_conf : Option Int)
    (limit : Nat) : Except HErr (List Doc) :=
  match db with
  | none => .error ⟨500, "Database not available"⟩
  | some store =>
      let filt := buildPredFilter league date min_odds max_odds min_conf max_conf
      let docs := get_documents store "prediction" filt (some limit)
      .ok (docs.map convertId)

/-- Endpoint `GET /predictions/{match_id}` (src/main.py lines 200-209). -/
def get_prediction (db : Option Store) (match_id : String) :
    Except HErr Doc :=
  match db with
  | none => .error ⟨500, "Database not available"⟩
  | some store =>
      let docs := get_documents store "prediction"
        [("match_id", .eq (.str match_id))] (some 1)
      match docs with
      | [] => .error ⟨404, "Not found"⟩
      | doc :: _ => .ok (convertId doc)

/-- Endpoint `GET /blogs` (src/main.py lines 212-219). -/
def list_blogs (db : Option Store) (limit : Nat) :
    Except HErr (List Doc) :=
  match db with
  | none => .error ⟨500, "Database not available"⟩
  | some store =>
      .ok ((get_documents store "blog" [] (some limit)).map convertId)

/-- Endpoint `GET /blogs/{slug}` (src/main.py lines 222-231). -/
def get_blog (db : Option Store) (slug : String) : Except HErr Doc :=
  match db with
  | none => .error ⟨500, "Database not available"⟩
  | some store =>
      let docs := get_documents store "blog" [("slug", .eq (.str slug))] (some 1)
      match docs with
      | [] => .error ⟨404, "Not found"⟩
      | doc :: _ => .ok (convertId doc)

/-- The static fallback plan list of `GET /plans`
(src/main.py lines 238-244). -/
def fallbackPlans : List Doc :=
  [ [("code", .str "free"), ("name", .str "Free"), ("monthly_price", .int 0),
     ("yearly_price", .int 0), ("currency", .str "USD")],
    [("code", .str "starter"), ("name", .str "Starter"),
     ("monthly_price", .int 19), ("yearly_price", .int 180),
     ("currency", .str "USD")],
    [("code", .str "pro"), ("name", .str "Pro"), ("monthly_price", .int 49),
     ("yearly_price", .int 468), ("currency", .str "USD")] ]

/-- Endpoint `GET /plans` (src/main.py lines 234-248): static fallback when the
store is down, otherwise an unbounded query of the `plan` collection. -/
def get_plans (db : Option Store) : Except HErr (List Doc) :=
  match db with
  | none => .ok fallbackPlans
  | some store =>
      .ok ((get_documents store "plan" [] none).map convertId)

/-- The static fallback content of `GET /legal/{slug}`
(src/main.py lines 255-260). -/
def fallbackLegal (slug : String) : Option Doc :=
  if slug = "terms" then
    some [("slug", .str "terms"), ("title", .str "Terms of Service"),
          ("content", .str "<p>Terms...</p>")]
  else if slug = "privacy" then
    some [("slug", .str "privacy"), ("title", .str "Privacy Policy"),
          ("content", .str "<p>Privacy...</p>")]
  else if slug = "responsible-betting" then
    some [("slug", .str "responsible-betting"),
          ("title", .str "Responsible Betting"),
          ("content", .str "<p>Play responsibly.</p>")]
  else none

/-- Endpoint `GET /legal/{slug}` (src/main.py lines 251-267). -/
def get_legal (db : Option Store) (slug : String) : Except HErr Doc :=
  match db with
  | none =>
      match fallbackLegal slug with
      | some doc => .ok doc
      | none => .error ⟨404, "Not found"⟩
  | some store =>
      let docs := get_documents store "legal" [("slug", .eq (.str slug))] (some 1)
      match docs with
      | [] => .error ⟨404, "Not found"⟩
      | doc :: _ => .ok (convertId doc)

/-- Endpoint `GET /admin/testimonials` (src/main.py lines 289-296). -/
def admin_testimonials (db : Option Store) (limit : Nat) :
    Except HErr (List Doc) :=
  match db with
  | none => .error ⟨500, "Database not available"⟩
  | some store =>
      .ok ((get_documents store "testimonial" [] (some limit)).map convertId)

/-! ## Schema validation (src/schemas.py)

The pydantic `Prediction` model: `pick`, `risk` and `status` are raw
strings checked against closed literal sets, `odds` carries `gt=1.0`,
`confidence` carries `ge=1, le=100`, and the optional expected-goals
figures carry `ge=0`. Fields without constraints are plain data. -/

/-- The raw payload of a `Prediction` insert (src/schemas.py lines 25-53),
before validation. -/
structure PredictionInput where
  league : String
  country : Option String
  match_id : String
  home_team : String
  away_team : String
  kickoff_iso : String
  pick : String
  odds : Rat
  confidence : Int
  risk : String
  xg_home : Option Rat
  xg_away : Option Rat
  injuries : Option String
  weather : Option String
  head_to_head : Option String
  recent_form : Option String
  analysis : Option String
  tags : List String
  status : String
deriving DecidableEq, Repr

/-- The closed enumeration of the `pick` literal (src/schemas.py
lines 32-41). -/
def pickValues : List String :=
  ["home_win", "away_win", "draw", "over_2_5", "under_2_5",
   "both_teams_score", "home_asian", "away_asian"]

/-- The `odds` field constraint `Field(..., gt=1.0)`
(src/schemas.py line 42). -/
def oddsOk (o : Rat) : Bool := 1 < o

/-- The `confidence` field constraint `Field(..., ge=1, le=100)`
(src/schemas.py line 43). -/
def confOk (c : Int) : Bool := 1 ≤ c && c ≤ 100

/-- Whether a `Prediction` payload passes pydantic validation
(src/schemas.py lines 25-53): literal-set membership for `pick`, `risk`
and `status`, `odds > 1.0`, `confidence` in `[1, 100]`, and non-negative
expected-goals figures when present. -/
def predictionValid (p : PredictionInput) : Bool :=
  pickValues.contains p.pick &&
  oddsOk p.odds &&
  confOk p.confidence &&
  ["low", "medium", "high"].contains p.risk &&
  (match p.xg_home with | none => true | some x => decide (0 ≤ x)) &&
  (match p.xg_away with | none => true | some x => decide (0 ≤ x)) &&
  ["pending", "won", "lost", "void"].contains p.status

/-- A valid example payload (one of the demo predictions seeded by
src/main.py lines 106-125). -/
def samplePrediction : PredictionInput where
  league := "Serie A"
  country := some "International"
  match_id := "M005"
  home_team := "Inter"
  away_team := "Juventus"
  kickoff_iso := "2024-03-05T18:00:00Z"
  pick := "under_2_5"
  odds := 12/5
  confidence := 60
  risk := "medium"
  xg_home := some (6/5)
  xg_away := some (9/10)
  injuries := none
  weather := none
  head_to_head := none
  recent_form := some "W-D-W-L-W"
  analysis := some "Model favors home due to xG and recent form."
  tags := ["demo", "major-league"]
  status := "pending"

/-- An example store used to exhibit the endpoint behaviors: one prediction,
one blog post, one testimonial, one plan, one legal page. -/
def sampleStore : Store := fun c =>
  if c = "prediction" then
    [[("_id", Value.oid "65f1ab"), ("league", .str "Serie A"),
      ("match_id", .str "M001"), ("home_team", .str "Inter"),
      ("away_team", .str "Juventus"),
      ("kickoff_iso", .str "2024-03-05T18:00:00Z"), ("pick", .str "home_win"),
      ("odds", .num (8/5)), ("confidence", .int 60), ("risk", .str "low")]]
  else if c = "blog" then
    [[("_id", Value.oid "65f1ac"), ("slug", .str "intro-1"),
      ("title", .str "Data-Driven Football Insights #1"),
      ("content", .str "<p>Sample blog content for SEO.</p>")]]
  else if c = "testimonial" then
    [[("_id", Value.oid "65f1ad"), ("name", .str "Carlos"),
      ("message", .str "Doubled my bankroll with safer picks."),
      ("verified", .bool true)]]
  else if c = "plan" then
    [[("_id", Value.oid "65f1ae"), ("code", .str "free"), ("name", .str "Free"),
      ("monthly_price", .int 0), ("yearly_price", .int 0),
      ("currency", .str "USD")]]
  else if c = "legal" then
    [[("_id", Value.oid "65f1af"), ("slug", .str "terms"),
      ("title", .str "Terms of Service"), ("content", .str "<p>Terms...</p>")]]
  else []

/-! ## Helper lemmas -/

/-- Setting a key leaves lookups of every other key unchanged. -/
theorem lookup_setKey_ne (d : Doc) (k k' : String) (v : Value) (h : k' ≠ k) :
    (setKey d k v).lookup k' = d.lookup k' := by
  have hb : (k' == k) = false := beq_eq_false_iff_ne.mpr h
  induction d with
  | nil => simp [setKey, List.lookup, hb]
  | cons hd tl ih =>
      obtain ⟨k₀, v₀⟩ := hd
      by_cases hk : k₀ = k
      · subst hk
        simp [setKey, List.lookup, hb]
      · simp [setKey, hk, List.lookup, ih]

/-- Setting a key makes lookup at that key return the new value. -/
theorem lookup_setKey_self (d : Doc) (k : String) (v : Value) :
    (setKey d k v).lookup k = some v := by
  induction d with
  | nil => simp [setKey, List.lookup]
  | cons hd tl ih =>
      obtain ⟨k₀, v₀⟩ := hd
      by_cases hk : k₀ = k
      · subst hk; simp [setKey, List.lookup]
      · have hb : (k == k₀) = false := beq_eq_false_iff_ne.mpr (Ne.symm hk)
        simp [setKey, hk, List.lookup, hb, ih]

/-- A document matches a concatenation of filters iff it matches each part. -/
theorem docMatches_append (f g : Filter) (d : Doc) :
    docMatches (f ++ g) d = (docMatches f d && docMatches g d) := by
  simp [docMatches, List.all_append]

/-! ## Claims -/

/-- C1: for the prediction-listing operation, supplying `min_conf=0` (with
`max_conf` absent) or `min_odds=0` (with `max_odds` absent) produces the same
filter and the same result as not supplying that bound at all: the zero bound
is falsy in the builder's `if min_conf or max_conf:` test, so no
confidence (resp. odds) condition is added. -/
theorem zero_bound_treated_as_absent (db : Option Store)
    (league date : Option String) (min_odds max_odds : Option Rat)
    (min_conf max_conf : Option Int) (limit : Nat) :
    (buildPredFilter league date min_odds max_odds (some 0) none
      = buildPredFilter league date min_odds max_odds none none)
    ∧ (buildPredFilter league date (some 0) none min_conf max_conf
      = buildPredFilter league date none none min_conf max_conf)
    ∧ (list_predictions db league date min_odds max_odds (some 0) none limit
      = list_predictions db league date min_odds max_odds none none limit)
    ∧ (list_predictions db league date (some 0) none min_conf max_conf limit
      = list_predictions db league date none none min_conf max_conf limit) := by
  have hconf : confPart (some 0) none = confPart none none := by
    simp [confPart, truthyInt]
  have hodds : oddsPart (some 0) none = oddsPart none none := by
    simp [oddsPart, truthyRat]
  refine ⟨?_, ?_, ?_, ?_⟩
  · simp [buildPredFilter, hconf]
  · simp [buildPredFilter, hodds]
  · cases db <;> simp [list_predictions, buildPredFilter, hconf]
  · cases db <;> simp [list_predictions, buildPredFilter, hodds]

/-- C9: calling the prediction listing with `league` set to the empty string
produces the same filter and result as omitting the parameter: the empty
string is falsy in `if league:`, so no league condition is added. -/
theorem empty_league_treated_as_absent (db : Option Store)
    (date : Option String) (min_odds max_odds : Option Rat)
    (min_conf max_conf : Option Int) (limit : Nat) :
    (buildPredFilter (some "") date min_odds max_odds min_conf max_conf
      = buildPredFilter none date min_odds max_odds min_conf max_conf)
    ∧ (list_predictions db (some "") date min_odds max_odds min_conf max_conf
        limit
      = list_predictions db none date min_odds max_odds min_conf max_conf
        limit) := by
  have hl : leaguePart (some "") = leaguePart none := by
    simp [leaguePart, truthyStr]
  refine ⟨?_, ?_⟩
  · simp [buildPredFilter, hl]
  · cases db <;> simp [list_predictions, buildPredFilter, hl]

/-- C2: a supplied `date` parameter filters by string prefix of the kickoff
timestamp (the builder emits the anchored regex `^date`): a document whose
`kickoff_iso` is the string `k` matches iff `date` is a string prefix of
`k`; concretely, `date="2024-03-05"` matches a kickoff starting
`"2024-03-05"` and excludes one starting `"2024-03-06"`. -/
theorem date_filter_matches_kickoff_start (date : String) (d : Doc) (k : String)
    (hk : d.lookup "kickoff_iso" = some (.str k)) :
    (docMatches (buildPredFilter none (some date) none none none none) d
      = date.data.isPrefixOf k.data)
    ∧ (docMatches (buildPredFilter none (some "2024-03-05") none none none
        none) [("kickoff_iso", .str "2024-03-05T18:00:00Z")] = true)
    ∧ (docMatches (buildPredFilter none (some "2024-03-05") none none none
        none) [("kickoff_iso", .str "2024-03-06T18:00:00Z")] = false) := by
  refine ⟨?_, by decide, by decide⟩
  by_cases hd : date = ""
  · subst hd
    simp [buildPredFilter, leaguePart, datePart, confPart, oddsPart,
      truthyStr, truthyInt, truthyRat, docMatches]
  · simp [buildPredFilter, leaguePart, datePart, confPart, oddsPart,
      truthyStr, truthyInt, truthyRat, hd, docMatches, hk, condMatches]

/-- Witness for C2 at a concrete document and date. -/
theorem date_filter_matches_kickoff_start_witness :
    docMatches (buildPredFilter none (some "2024-03") none none none none)
      [("kickoff_iso", Value.str "2024-03-05T18:00:00Z")]
      = "2024-03".data.isPrefixOf "2024-03-05T18:00:00Z".data :=
  (date_filter_matches_kickoff_start "2024-03"
    [("kickoff_iso", Value.str "2024-03-05T18:00:00Z")]
    "2024-03-05T18:00:00Z" rfl).1

/-- C3: with the store unavailable (`db = none`), the plans listing
returns the fixed three-plan fallback set with success and the legal-page
lookup returns fixed content for `terms`, `privacy` and
`responsible-betting` (404 for any other slug), while the prediction,
blog and testimonial read operations all fail with a 500
"Database not available" error. -/
theorem store_down_fallback_policy (slug : String)
    (h1 : slug ≠ "terms") (h2 : slug ≠ "privacy")
    (h3 : slug ≠ "responsible-betting")
    (league date : Option String) (min_odds max_odds : Option Rat)
    (min_conf max_conf : Option Int) (limit blim tlim : Nat)
    (match_id bslug : String) :
    (get_plans none = .ok fallbackPlans)
    ∧ (get_legal none "terms"
        = .ok [("slug", .str "terms"), ("title", .str "Terms of Service"),
               ("content", .str "<p>Terms...</p>")])
    ∧ (get_legal none "privacy"
        = .ok [("slug", .str "privacy"), ("title", .str "Privacy Policy"),
               ("content", .str "<p>Privacy...</p>")])
    ∧ (get_legal none "responsible-betting"
        = .ok [("slug", .str "responsible-betting"),
               ("title", .str "Responsible Betting"),
               ("content", .str "<p>Play responsibly.</p>")])
    ∧ (get_legal none slug = .error ⟨404, "Not found"⟩)
    ∧ (list_predictions none league date min_odds max_odds min_conf max_conf
        limit = .error ⟨500, "Database not available"⟩)
    ∧ (get_prediction none match_id
        = .error ⟨500, "Database not available"⟩)
    ∧ (list_blogs none blim = .error ⟨500, "Database not available"⟩)
    ∧ (get_blog none bslug = .error ⟨500, "Database not available"⟩)
    ∧ (admin_testimonials none tlim
        = .error ⟨500, "Database not available"⟩) := by
  refine ⟨rfl, rfl, rfl, rfl, ?_, rfl, rfl, rfl, rfl, rfl⟩
  simp [get_legal, fallbackLegal, h1, h2, h3]

/-- Witness for C3 at concrete parameters, including an unknown legal
slug. -/
theorem store_down_fallback_policy_witness :
    get_plans none = .ok fallbackPlans
    ∧ get_legal none "cookie-policy" = .error ⟨404, "Not found"⟩
    ∧ list_predictions none none none none none none none 20
        = .error ⟨500, "Database not available"⟩ := by
  have h := store_down_fallback_policy "cookie-policy"
    (by decide) (by decide) (by decide) none none none none none none
    20 6 10 "M001" "intro-1"
  exact ⟨h.1, h.2.2.2.2.1, h.2.2.2.2.2.1⟩

/-- C4: with the store available, every single-document lookup
(prediction by match id, blog post by slug, legal page by slug) returns a
404 "Not found" error when zero documents match, while every listing
operation (predictions, blogs, testimonials, plans) returns a successful
response with an empty items list when zero documents match. -/
theorem zero_matches_lookup_404_listing_empty (store : Store)
    (match_id bslug lslug : String) (league date : Option String)
    (min_odds max_odds : Option Rat) (min_conf max_conf : Option Int)
    (limit blim tlim : Nat) :
    ((∀ d ∈ store "prediction",
        docMatches [("match_id", .eq (.str match_id))] d = false) →
      get_prediction (some store) match_id = .error ⟨404, "Not found"⟩)
    ∧ ((∀ d ∈ store "blog",
        docMatches [("slug", .eq (.str bslug))] d = false) →
      get_blog (some store) bslug = .error ⟨404, "Not found"⟩)
    ∧ ((∀ d ∈ store "legal",
        docMatches [("slug", .eq (.str lslug))] d = false) →
      get_legal (some store) lslug = .error ⟨404, "Not found"⟩)
    ∧ ((∀ d ∈ store "prediction",
        docMatches (buildPredFilter league date min_odds max_odds min_conf
          max_conf) d = false) →
      list_predictions (some store) league date min_odds max_odds min_conf
        max_conf limit = .ok [])
    ∧ (store "blog" = [] → list_blogs (some store) blim = .ok [])
    ∧ (store "testimonial" = [] →
        admin_testimonials (some store) tlim = .ok [])
    ∧ (store "plan" = [] → get_plans (some store) = .ok []) := by
  refine ⟨?_, ?_, ?_, ?_, ?_, ?_, ?_⟩
  · intro h
    have : (store "prediction").filter
        (docMatches [("match_id", .eq (.str match_id))]) = [] := by
      simp only [List.filter_eq_nil_iff]
      intro a ha
      simp [h a ha]
    simp [get_prediction, get_documents, this]
  · intro h
    have : (store "blog").filter
        (docMatches [("slug", .eq (.str bslug))]) = [] := by
      simp only [List.filter_eq_nil_iff]
      intro a ha
      simp [h a ha]
    simp [get_blog, get_documents, this]
  · intro h
    have : (store "legal").filter
        (docMatches [("slug", .eq (.str lslug))]) = [] := by
      simp only [List.filter_eq_nil_iff]
      intro a ha
      simp [h a ha]
    simp [get_legal, get_documents, this]
  · intro h
    have : (store "prediction").filter
        (docMatches (buildPredFilter league date min_odds max_odds min_conf
          max_conf)) = [] := by
      simp only [List.filter_eq_nil_iff]
      intro a ha
      simp [h a ha]
    simp [list_predictions, get_documents, this]
  · intro h
    simp [list_blogs, get_documents, h]
  · intro h
    simp [admin_testimonials, get_documents, h]
  · intro h
    simp [get_plans, get_documents, h]

/-- Witness for C4 on the example store: a nonexistent match id yields
404; a filter matching no documents yields an empty listing. -/
theorem zero_matches_lookup_404_listing_empty_witness :
    get_prediction (some sampleStore) "M999" = .error ⟨404, "Not found"⟩
    ∧ list_predictions (some sampleStore) (some "La Liga") none none none
        none none 20 = .ok [] := by
  have h := zero_matches_lookup_404_listing_empty sampleStore "M999"
    "nope" "nope" (some "La Liga") none none none none none 20 6 10
  exact ⟨h.1 (by decide), h.2.2.2.1 (by decide)⟩

/-- The league part never contributes a key other than `league`. -/
theorem leaguePart_any_key (league : Option String) (k : String)
    (h : ("league" == k) = false) :
    (leaguePart league).any (fun kc => kc.1 == k) = false := by
  cases league with
  | none => simp [leaguePart, truthyStr]
  | some l => by_cases hl : l = "" <;> simp [leaguePart, truthyStr, hl, h]

/-- The date part never contributes a key other than `kickoff_iso`. -/
theorem datePart_any_key (date : Option String) (k : String)
    (h : ("kickoff_iso" == k) = false) :
    (datePart date).any (fun kc => kc.1 == k) = false := by
  cases date with
  | none => simp [datePart, truthyStr]
  | some s => by_cases hs : s = "" <;> simp [datePart, truthyStr, hs, h]

/-- The confidence part never contributes a key other than `confidence`. -/
theorem confPart_any_key (mc Mc : Option Int) (k : String)
    (h : ("confidence" == k) = false) :
    (confPart mc Mc).any (fun kc => kc.1 == k) = false := by
  cases mc with
  | none =>
      cases Mc with
      | none => simp [confPart, truthyInt]
      | some b => by_cases hb : b = 0 <;> simp [confPart, truthyInt, hb, h]
  | some a =>
      cases Mc with
      | none => by_cases ha : a = 0 <;> simp [confPart, truthyInt, ha, h]
      | some b =>
          by_cases ha : a = 0 <;> by_cases hb : b = 0 <;>
            simp [confPart, truthyInt, ha, hb, h]

/-- The odds part never contributes a key other than `odds`. -/
theorem oddsPart_any_key (mo Mo : Option Rat) (k : String)
    (h : ("odds" == k) = false) :
    (oddsPart mo Mo).any (fun kc => kc.1 == k) = false := by
  cases mo with
  | none =>
      cases Mo with
      | none => simp [oddsPart, truthyRat]
      | some b => by_cases hb : b = 0 <;> simp [oddsPart, truthyRat, hb, h]
  | some a =>
      cases Mo with
      | none => by_cases ha : a = 0 <;> simp [oddsPart, truthyRat, ha, h]
      | some b =>
          by_cases ha : a = 0 <;> by_cases hb : b = 0 <;>
            simp [oddsPart, truthyRat, ha, hb, h]

/-- The confidence part carries a `confidence` condition exactly when one
of the two bounds is truthy. -/
theorem confPart_any_confidence (mc Mc : Option Int) :
    (confPart mc Mc).any (fun kc => kc.1 == "confidence")
      = (truthyInt mc || truthyInt Mc) := by
  cases mc with
  | none =>
      cases Mc with
      | none => simp [confPart, truthyInt]
      | some b => by_cases hb : b = 0 <;> simp [confPart, truthyInt, hb]
  | some a =>
      cases Mc with
      | none => by_cases ha : a = 0 <;> simp [confPart, truthyInt, ha]
      | some b =>
          by_cases ha : a = 0 <;> by_cases hb : b = 0 <;>
            simp [confPart, truthyInt, ha, hb]

/-- The odds part carries an `odds` condition exactly when one of the two
bounds is truthy. -/
theorem oddsPart_any_odds (mo Mo : Option Rat) :
    (oddsPart mo Mo).any (fun kc => kc.1 == "odds")
      = (truthyRat mo || truthyRat Mo) := by
  cases mo with
  | none =>
      cases Mo with
      | none => simp [oddsPart, truthyRat]
      | some b => by_cases hb : b = 0 <;> simp [oddsPart, truthyRat, hb]
  | some a =>
      cases Mo with
      | none => by_cases ha : a = 0 <;> simp [oddsPart, truthyRat, ha]
      | some b =>
          by_cases ha : a = 0 <;> by_cases hb : b = 0 <;>
            simp [oddsPart, truthyRat, ha, hb]

/-- C5 as stated is false at `min_conf = 0`, `max_conf` absent: the lower
confidence bound is supplied, yet the filter contains no confidence
condition — inclusion is not equivalent to "at least one bound supplied". -/
theorem range_condition_iff_supplied_counterexample :
    ¬ (((buildPredFilter none none none none (some 0) none).any
          (fun kc => kc.1 == "confidence")) = true
        ↔ ((some (0 : Int)).isSome = true
            ∨ (none : Option Int).isSome = true)) := by
  decide

/-- C5 amended: the confidence (resp. odds) range condition is included in
the filter iff at least one of its two bounds is supplied with a truthy
(nonzero) value; when included, each supplied bound contributes an
inclusive (`$gte`/`$lte`) comparison — including a zero bound when the
other bound is truthy; the overall filter is the conjunction of the four
parts, and with every parameter absent the filter is empty. -/
theorem range_conditions_amended (league date : Option String)
    (min_odds max_odds : Option Rat) (min_conf max_conf : Option Int)
    (lo hi n : Int) (qlo qhi q : Rat) (d : Doc) :
    (((buildPredFilter league date min_odds max_odds min_conf max_conf).any
        (fun kc => kc.1 == "confidence"))
      = (truthyInt min_conf || truthyInt max_conf))
    ∧ (((buildPredFilter league date min_odds max_odds min_conf max_conf).any
        (fun kc => kc.1 == "odds"))
      = (truthyRat min_odds || truthyRat max_odds))
    ∧ ((truthyInt min_conf || truthyInt max_conf) = true →
        confPart min_conf max_conf
          = [("confidence",
              .range (min_conf.map Value.int) (max_conf.map Value.int))])
    ∧ ((truthyRat min_odds || truthyRat max_odds) = true →
        oddsPart min_odds max_odds
          = [("odds",
              .range (min_odds.map Value.num) (max_odds.map Value.num))])
    ∧ (condMatches (.range (some (.int lo)) (some (.int hi))) (.int n)
        = (decide (lo ≤ n) && decide (n ≤ hi)))
    ∧ (condMatches (.range (some (.num qlo)) (some (.num qhi))) (.num q)
        = (decide (qlo ≤ q) && decide (q ≤ qhi)))
    ∧ (docMatches (buildPredFilter league date min_odds max_odds min_conf
          max_conf) d
        = (docMatches (leaguePart league) d && docMatches (datePart date) d
            && docMatches (confPart min_conf max_conf) d
            && docMatches (oddsPart min_odds max_odds) d))
    ∧ buildPredFilter none none none none none none = [] := by
  refine ⟨?_, ?_, ?_, ?_, ?_, ?_, ?_, by decide⟩
  · simp [buildPredFilter, List.any_append,
      leaguePart_any_key league "confidence" (by decide),
      datePart_any_key date "confidence" (by decide),
      oddsPart_any_key min_odds max_odds "confidence" (by decide),
      confPart_any_confidence]
  · simp [buildPredFilter, List.any_append,
      leaguePart_any_key league "odds" (by decide),
      datePart_any_key date "odds" (by decide),
      confPart_any_key min_conf max_conf "odds" (by decide),
      oddsPart_any_odds]
  · intro h
    cases min_conf <;> cases max_conf <;>
      simp_all [confPart, truthyInt]
  · intro h
    cases min_odds <;> cases max_odds <;>
      simp_all [oddsPart, truthyRat]
  · simp [condMatches, vle]
  · simp [condMatches, vle]
  · simp [buildPredFilter, docMatches, List.all_append, Bool.and_assoc]

/-- Witness for C5's amended statement: a zero lower confidence bound is
still included, inclusively, when the upper bound is truthy. -/
theorem range_conditions_amended_witness :
    confPart (some 0) (some 50)
      = [("confidence", Cond.range (some (.int 0)) (some (.int 50)))] :=
  (range_conditions_amended none none none none (some 0) (some 50)
    0 0 0 0 0 0 []).2.2.1 (by decide)

/-- C6: validation rejects every prediction payload whose odds are at
most 1.0, and the odds field check accepts exactly the values above 1.0;
the boundary 1.0 itself is rejected and 1.0001 is accepted. -/
theorem odds_must_exceed_one (p : PredictionInput) (h : p.odds ≤ 1) :
    predictionValid p = false
    ∧ (∀ o : Rat, oddsOk o = true ↔ 1 < o)
    ∧ oddsOk 1 = false
    ∧ oddsOk (10001/10000) = true := by
  refine ⟨?_, fun o => by simp [oddsOk], by norm_num [oddsOk],
    by norm_num [oddsOk]⟩
  have ho : oddsOk p.odds = false := by
    simp [oddsOk]
    exact h
  simp [predictionValid, ho]

/-- Witness for C6: a payload differing from a valid one only in
`odds = 1.0` is rejected. -/
theorem odds_must_exceed_one_witness :
    predictionValid { samplePrediction with odds := 1 } = false :=
  (odds_must_exceed_one { samplePrediction with odds := 1 }
    (by simp [samplePrediction])).1

/-- C7: validation rejects every prediction payload whose confidence lies
outside the inclusive range `[1, 100]`, and the confidence field check
accepts exactly that range; both boundary values 1 and 100 are
accepted. -/
theorem confidence_within_1_100 (p : PredictionInput)
    (h : p.confidence < 1 ∨ 100 < p.confidence) :
    predictionValid p = false
    ∧ (∀ c : Int, confOk c = true ↔ 1 ≤ c ∧ c ≤ 100)
    ∧ confOk 1 = true
    ∧ confOk 100 = true
    ∧ confOk 0 = false
    ∧ confOk 101 = false := by
  refine ⟨?_, fun c => by simp [confOk], by decide, by decide, by decide,
    by decide⟩
  have hc : confOk p.confidence = false := by
    simp [confOk]
    omega
  simp [predictionValid, hc]

/-- Witness for C7: a payload differing from a valid one only in
`confidence = 0` is rejected. -/
theorem confidence_within_1_100_witness :
    predictionValid { samplePrediction with confidence := 0 } = false :=
  (confidence_within_1_100 { samplePrediction with confidence := 0 }
    (by simp [samplePrediction])).1

/-- C8: the response shaping rewrites exactly the store-internal `_id`
field to its display string and leaves every other field unchanged; the
prediction listing returns precisely the queried documents with this
rewrite applied, and a successful single-prediction lookup returns the
first queried document with this rewrite applied. -/
theorem id_rewrite_is_only_transformation (d : Doc) (k : String)
    (hk : k ≠ "_id") (store : Store) (league date : Option String)
    (min_odds max_odds : Option Rat) (min_conf max_conf : Option Int)
    (limit : Nat) (match_id : String) :
    ((convertId d).lookup "_id" = some (.str (pyStr (pyGet d "_id"))))
    ∧ ((convertId d).lookup k = d.lookup k)
    ∧ (list_predictions (some store) league date min_odds max_odds min_conf
        max_conf limit
      = .ok ((get_documents store "prediction"
          (buildPredFilter league date min_odds max_odds min_conf max_conf)
          (some limit)).map convertId))
    ∧ (∀ d0 rest, get_documents store "prediction"
          [("match_id", .eq (.str match_id))] (some 1) = d0 :: rest →
        get_prediction (some store) match_id = .ok (convertId d0)) := by
  refine ⟨lookup_setKey_self d "_id" _, lookup_setKey_ne d "_id" k _ hk,
    rfl, ?_⟩
  intro d0 rest hd
  simp [get_prediction, hd]

/-- Witness for C8 on a concrete document: the league field survives the
rewrite and the identifier becomes its display string. -/
theorem id_rewrite_is_only_transformation_witness :
    ((convertId [("_id", Value.oid "65f1ab"), ("league", Value.str "Serie A")]).lookup
        "league" = some (Value.str "Serie A"))
    ∧ ((convertId [("_id", Value.oid "65f1ab"), ("league", Value.str "Serie A")]).lookup
        "_id" = some (Value.str "65f1ab")) := by
  have h := id_rewrite_is_only_transformation
    [("_id", Value.oid "65f1ab"), ("league", Value.str "Serie A")]
    "league" (by decide) sampleStore none none none none none none 20 "M001"
  exact ⟨h.2.1.trans (by decide), h.1.trans (by decide)⟩

/-- C10: the identifier field of every returned document is always a
string: the rewrite renders any stored identifier via `str()`, a missing
identifier becomes the string `"None"` rather than an error or an omitted
field, and every document in a successful prediction listing carries a
string `_id`. -/
theorem id_always_rendered_string (d : Doc) (h : d.lookup "_id" = none)
    (store : Store) (league date : Option String)
    (min_odds max_odds : Option Rat) (min_conf max_conf : Option Int)
    (limit : Nat) :
    ((convertId d).lookup "_id" = some (.str "None"))
    ∧ (∀ d' : Doc, (convertId d').lookup "_id"
        = some (.str (pyStr (pyGet d' "_id"))))
    ∧ (∀ items, list_predictions (some store) league date min_odds max_odds
          min_conf max_conf limit = .ok items →
        ∀ doc ∈ items, ∃ s, doc.lookup "_id" = some (Value.str s)) := by
  refine ⟨?_, fun d' => lookup_setKey_self d' "_id" _, ?_⟩
  · have := lookup_setKey_self d "_id" (.str (pyStr (pyGet d "_id")))
    simpa [convertId, pyGet, h, pyStr] using this
  · intro items hi doc hd
    simp only [list_predictions, Except.ok.injEq] at hi
    subst hi
    obtain ⟨d0, _, rfl⟩ := List.mem_map.mp hd
    exact ⟨_, lookup_setKey_self d0 "_id" _⟩

/-- Witness for C10 on a document with no identifier at all. -/
theorem id_always_rendered_string_witness :
    (convertId [("league", Value.str "Serie A")]).lookup "_id"
      = some (Value.str "None") :=
  (id_always_rendered_string [("league", Value.str "Serie A")] rfl
    sampleStore none none none none none none 20).1

end SportsApi
